import Mathlib

/-! Verification development for the `smart-v1` voice-relay server (`src/server.py`).

The locally implemented logic is (a) the linear resampling routine in
`upload_audio` (lines 518-528) converting float samples at an arbitrary source
rate to 16-bit signed PCM at 16000 Hz, and (b) the process-wide mutable session
record `esp32_data` with its transitions in `upload_audio`, `clear_audio` and
`get_audio_stream`, plus `choose_model`.

Modelling conventions:
* Python floats are modelled by exact rationals `ℚ`; the claims about sample
  values carry explicit tolerances that absorb the float/real gap.
* `round` is the Python builtin: round-half-to-even (`pyRound`).
* `np.linspace(0.0, 1.0, n, endpoint=False)` is `linspace01 n = [i/n, i < n]`.
* `np.interp(x, xp, fp)` raises `ValueError` when `xp` is empty; for nonempty
  `xp` it clamps outside the grid and interpolates linearly inside (`npInterp`).
* `.astype(np.int16)` on a float array truncates toward zero and keeps the low
  16 bits as a twos-complement value (`astypeInt16`): no clamping.
* `float(target_rate) / original_rate` raises `ZeroDivisionError` when
  `original_rate = 0`; the resampler therefore returns `Except` with the two
  raisable errors. The multi-channel mean-collapse (line 516) happens before
  the modelled region, so `resample` takes the already-mono sample list.
-/

/-- The Python builtin `round` on a (here exact) number: round half to even. -/
def pyRound (q : ℚ) : ℤ :=
  if q - ⌊q⌋ < 1/2 then ⌊q⌋
  else if 1/2 < q - ⌊q⌋ then ⌊q⌋ + 1
  else if ⌊q⌋ % 2 = 0 then ⌊q⌋ else ⌊q⌋ + 1

/-- Truncation toward zero, the C-cast behaviour used by numpy float→int. -/
def ratTrunc (q : ℚ) : ℤ := if 0 ≤ q then ⌊q⌋ else ⌈q⌉

/-- Model of `(x * 32767).astype(np.int16)` on one sample (server.py line 527):
scale by 32767, truncate toward zero, keep the low 16 bits, reinterpret as a
twos-complement 16-bit signed value. -/
def astypeInt16 (q : ℚ) : ℤ :=
  if ratTrunc (q * 32767) % 65536 < 32768 then ratTrunc (q * 32767) % 65536
  else ratTrunc (q * 32767) % 65536 - 65536

/-- Little-endian byte pair of a 16-bit signed value, as `tobytes()` emits. -/
def int16le (v : ℤ) : List ℕ :=
  let u : ℕ := (v % 65536).toNat
  [u % 256, u / 256]

/-- Model of `np.linspace(0.0, 1.0, n, endpoint=False)` (server.py lines 522-523). -/
def linspace01 (n : ℕ) : List ℚ :=
  (List.range n).map (fun (i : ℕ) => (i : ℚ) / (n : ℚ))

/-- Core of `np.interp` on a nonempty list of (grid point, value) pairs with a
strictly increasing grid: clamp left of the first point, interpolate linearly
between consecutive points, clamp right of the last point. -/
def interpSegs : List (ℚ × ℚ) → ℚ → ℚ
  | [], _ => 0
  | [(_, f1)], _ => f1
  | (x1, f1) :: (x2, f2) :: rest, x =>
    if x ≤ x1 then f1
    else if x ≤ x2 then f1 + (x - x1) / (x2 - x1) * (f2 - f1)
    else interpSegs ((x2, f2) :: rest) x

/-- Model of `np.interp(x, xp, fp)` at one query point (precondition `xp ≠ []`). -/
def npInterp (x : ℚ) (xp fp : List ℚ) : ℚ :=
  interpSegs (xp.zip fp) x

/-- The two exceptions the resampling block of `upload_audio` can raise:
`ZeroDivisionError` from `float(target_rate) / original_rate`, and
`ValueError: array of sample points is empty` from `np.interp`. -/
inductive ResampleError where
  | zeroDivision
  | emptySamplePoints
deriving DecidableEq, Repr

/-- The resampling block of `upload_audio` (server.py lines 518-525) on the
mono float sample list: identity when the source rate is already 16000,
otherwise compute `number_of_samples = round(len(data) * 16000.0 / rate)`
(raising on `rate = 0`) and linearly interpolate onto the new uniform grid
(`np.interp` raising when `data` is empty). -/
def resample (data : List ℚ) (original_rate : ℕ) : Except ResampleError (List ℚ) :=
  if original_rate = 16000 then
    Except.ok data
  else if original_rate = 0 then
    Except.error ResampleError.zeroDivision
  else
    let number_of_samples : ℕ := (pyRound ((data.length : ℚ) * 16000 / (original_rate : ℚ))).toNat
    if data.length = 0 then
      Except.error ResampleError.emptySamplePoints
    else
      Except.ok ((linspace01 number_of_samples).map
        (fun x => npInterp x (linspace01 data.length) data))

/-- Model of `data_int16 = (data * 32767).astype(np.int16)` (server.py line 527). -/
def pcm16 (samples : List ℚ) : List ℤ :=
  samples.map astypeInt16

/-- Model of `raw_audio_bytes = data_int16.tobytes()` (server.py line 528). -/
def pcmBytes (samples : List ℚ) : List ℕ :=
  (pcm16 samples).flatMap int16le

/-- The process-wide session record `esp32_data` (server.py lines 41-47).
`audio_data` is the raw PCM byte list or `none`; `status` keeps the literal
strings the code stores. -/
structure Esp32Data where
  status : String
  audio_data : Option (List ℕ)
  has_audio : Bool
  text : String
  response_text : String
deriving DecidableEq, Repr

/-- Initial value of `esp32_data` at process start (server.py lines 41-47). -/
def initData : Esp32Data :=
  { status := "ready", audio_data := none, has_audio := false,
    text := "", response_text := "" }

/-- Python `str.lower()` restricted to the character mapping Lean provides
(identical on the ASCII strings the route compares against). -/
def pyLower (s : String) : String :=
  String.mk (s.data.map Char.toLower)

/-- Python `str.strip()`: drop leading and trailing whitespace. -/
def pyStrip (s : String) : String :=
  String.mk (((s.data.dropWhile Char.isWhitespace).reverse.dropWhile
    Char.isWhitespace).reverse)

/-- Model of `choose_model` (server.py lines 442-449): the `model` query parameter
(absent modelled as `none`, which the code replaces by the empty string) is lowercased and
stripped; `strong`/`gpt`/`gpt-oss` select the strong model id, anything else
the fast default. -/
def choose_model (modelParam : Option String) : String :=
  if pyStrip (pyLower (modelParam.getD "")) = "strong" ∨
     pyStrip (pyLower (modelParam.getD "")) = "gpt" ∨
     pyStrip (pyLower (modelParam.getD "")) = "gpt-oss" then
    "openai/gpt-oss-120b"
  else
    "llama-3.1-8b-instant"

/-- Inputs of one `/upload` request: the request shape, the `model` query
parameter, and the outcomes of the three external collaborator calls, each
`none` when that call raises. `ttsDecode` bundles gTTS synthesis with
`sf.read` decoding and the mono collapse: its result is the mono float sample
list and the decoded `original_rate`. -/
structure UploadEnv where
  clientConfigured : Bool
  hasAudioField : Bool
  filenameEmpty : Bool
  modelParam : Option String
  transcription : Option String
  chat : Option String
  ttsDecode : Option (List ℚ × ℕ)
deriving DecidableEq, Repr

/-- Outcome of `/upload`: the success JSON fields, or an error with its HTTP
status code. -/
inductive UploadResponse where
  | ok (text response model : String)
  | error (http : ℕ)
deriving DecidableEq, Repr

/-- Model of `upload_audio` (server.py lines 457-546) as a state transformer: guard
checks return without touching state; then status becomes processing; each
pipeline stage writes its artifact as soon as it succeeds; any raised
exception is caught at line 543, which sets status back to ready and returns
HTTP 500, leaving every other field as the pipeline left it. -/
def upload_audio (s : Esp32Data) (env : UploadEnv) : Esp32Data × UploadResponse :=
  if env.clientConfigured = false then
    (s, UploadResponse.error 500)
  else if env.hasAudioField = false then
    (s, UploadResponse.error 400)
  else if env.filenameEmpty = true then
    (s, UploadResponse.error 400)
  else
    let s1 := { s with status := "processing" }
    match env.transcription with
    | none => ({ s1 with status := "ready" }, UploadResponse.error 500)
    | some userText =>
      let s2 := { s1 with text := userText }
      match env.chat with
      | none => ({ s2 with status := "ready" }, UploadResponse.error 500)
      | some replyText =>
        let s3 := { s2 with response_text := replyText }
        match env.ttsDecode with
        | none => ({ s3 with status := "ready" }, UploadResponse.error 500)
        | some (data, original_rate) =>
          match resample data original_rate with
          | Except.error _ => ({ s3 with status := "ready" }, UploadResponse.error 500)
          | Except.ok out =>
            ({ s3 with audio_data := some (pcmBytes out), has_audio := true,
                       status := "sending_to_esp32" },
             UploadResponse.ok userText replyText (choose_model env.modelParam))

/-- Model of `clear_audio` (server.py lines 566-573): clear every field and return to
`ready`. -/
def clear_audio (_s : Esp32Data) : Esp32Data :=
  { status := "ready", audio_data := none, has_audio := false,
    text := "", response_text := "" }

/-- Model of `get_audio_stream` (server.py lines 548-560): read-only; serves the byte
buffer, or 404 (`none`) when `has_audio` is false or the buffer is absent. -/
def get_audio_stream (s : Esp32Data) : Esp32Data × Option (List ℕ) :=
  if s.has_audio = false ∨ s.audio_data = none then (s, none)
  else (s, s.audio_data)

/-- The Session State invariant of the spec: `has_audio` implies the buffer is
present and non-empty. -/
def audioInv (s : Esp32Data) : Prop :=
  s.has_audio = false ∨ (s.audio_data ≠ none ∧ s.audio_data ≠ some [])

/-- The weaker invariant the code does maintain: `has_audio` implies the
buffer is present (possibly empty). -/
def audioInvPresent (s : Esp32Data) : Prop :=
  s.has_audio = false ∨ s.audio_data ≠ none

instance (s : Esp32Data) : Decidable (audioInv s) := by
  unfold audioInv; infer_instance

instance (s : Esp32Data) : Decidable (audioInvPresent s) := by
  unfold audioInvPresent; infer_instance

theorem length_linspace01 (n : ℕ) : (linspace01 n).length = n := by
  unfold linspace01
  rw [List.length_map, List.length_range]

theorem interpSegs_const (c x : ℚ) :
    ∀ ps : List (ℚ × ℚ), ps ≠ [] → (∀ p ∈ ps, p.2 = c) → interpSegs ps x = c := by
  intro ps
  induction ps with
  | nil => intro h _; exact absurd rfl h
  | cons p tl ih =>
    intro _ hmem
    obtain ⟨x1, f1⟩ := p
    cases tl with
    | nil =>
      have h1 : f1 = c := hmem (x1, f1) (by simp)
      simp [interpSegs, h1]
    | cons q tl2 =>
      obtain ⟨x2, f2⟩ := q
      have h1 : f1 = c := hmem (x1, f1) (by simp)
      have h2 : f2 = c := hmem (x2, f2) (by simp)
      have htl : ∀ p ∈ (x2, f2) :: tl2, p.2 = c := by
        intro p hp
        exact hmem p (List.mem_cons_of_mem _ hp)
      simp only [interpSegs]
      split_ifs with hx1 hx2
      · exact h1
      · rw [h1, h2]; ring
      · exact ih (by simp) htl

theorem npInterp_const (L : ℕ) (hL : L ≠ 0) (c x : ℚ) :
    npInterp x (linspace01 L) (List.replicate L c) = c := by
  apply interpSegs_const
  · intro h
    have hlen : ((linspace01 L).zip (List.replicate L c)).length = L := by
      simp [List.length_zip, length_linspace01]
    rw [h] at hlen
    simp at hlen
    exact hL hlen.symm
  · intro p hp
    exact List.eq_of_mem_replicate (List.of_mem_zip hp).2

theorem pyRound_close (q : ℚ) : |(pyRound q : ℚ) - q| ≤ 1/2 := by
  have hf := Int.floor_le q
  have hf1 := Int.lt_floor_add_one q
  unfold pyRound
  split_ifs with h1 h2 h3 <;> rw [abs_le] <;> push_cast <;> constructor <;> linarith

theorem ratTrunc_close (q : ℚ) : |(ratTrunc q : ℚ) - q| < 1 := by
  unfold ratTrunc
  split_ifs with h
  · have h1 := Int.floor_le q
    have h2 := Int.lt_floor_add_one q
    rw [abs_lt]; constructor <;> linarith
  · have h1 := Int.le_ceil q
    have h2 := Int.ceil_lt_add_one q
    rw [abs_lt]; constructor <;> linarith

theorem trunc_vs_pyRound (y : ℚ) : |ratTrunc y - pyRound y| ≤ 1 := by
  have h1 := ratTrunc_close y
  have h2 := pyRound_close y
  have h3 : |(ratTrunc y : ℚ) - (pyRound y : ℚ)| < 3/2 := by
    calc |(ratTrunc y : ℚ) - (pyRound y : ℚ)|
        ≤ |(ratTrunc y : ℚ) - y| + |y - (pyRound y : ℚ)| := abs_sub_le _ _ _
      _ < 3/2 := by rw [abs_sub_comm y]; linarith
  have h4 : (↑|ratTrunc y - pyRound y| : ℚ) < 2 := by
    push_cast
    calc |(ratTrunc y : ℚ) - (pyRound y : ℚ)| < 3/2 := h3
      _ < 2 := by norm_num
  have h5 : |ratTrunc y - pyRound y| < 2 := by exact_mod_cast h4
  omega

theorem pyRound_nonneg (q : ℚ) (h : 0 ≤ q) : 0 ≤ pyRound q := by
  have hf : (0:ℤ) ≤ ⌊q⌋ := Int.floor_nonneg.mpr h
  unfold pyRound
  split_ifs <;> omega

theorem ratTrunc_bounds (q : ℚ) (h1 : -1 ≤ q) (h2 : q ≤ 1) :
    -32767 ≤ ratTrunc (q * 32767) ∧ ratTrunc (q * 32767) ≤ 32767 := by
  have hl : (-32767 : ℚ) ≤ q * 32767 := by nlinarith
  have hr : q * 32767 ≤ 32767 := by nlinarith
  unfold ratTrunc
  split_ifs with h
  · constructor
    · have : (0:ℤ) ≤ ⌊q * 32767⌋ := Int.floor_nonneg.mpr h
      omega
    · have : ⌊q * 32767⌋ ≤ ⌊(32767 : ℚ)⌋ := Int.floor_le_floor hr
      simpa using this
  · constructor
    · have : ⌈(-32767 : ℚ)⌉ ≤ ⌈q * 32767⌉ := Int.ceil_le_ceil hl
      simpa using this
    · have : ⌈q * 32767⌉ ≤ ⌈(32767 : ℚ)⌉ := Int.ceil_le_ceil hr
      simpa using this

theorem astypeInt16_eq_trunc (q : ℚ) (h1 : -32768 ≤ ratTrunc (q * 32767))
    (h2 : ratTrunc (q * 32767) ≤ 32767) : astypeInt16 q = ratTrunc (q * 32767) := by
  unfold astypeInt16
  split_ifs with h <;> omega

theorem pcmBytes_length (l : List ℚ) : (pcmBytes l).length = 2 * l.length := by
  induction l with
  | nil => rfl
  | cons a tl ih =>
    have hstep : pcmBytes (a :: tl) = int16le (astypeInt16 a) ++ pcmBytes tl := rfl
    have h2 : (int16le (astypeInt16 a)).length = 2 := rfl
    rw [hstep, List.length_append, h2, ih, List.length_cons]
    ring

/-- C2 counterexample: at a source rate of 8000 (different from the 16000
target) the resampler signals the empty-sample-points error on a zero-length
input instead of returning a zero-length output. -/
theorem resample_empty_error_cex :
    resample ([] : List ℚ) 8000 = Except.error ResampleError.emptySamplePoints :=
  rfl

/-- C2 (amended): a zero-length input yields a zero-length output with no
error exactly when the source rate is the 16000 target (interpolation is
skipped); for every other source rate the routine signals an error, because
`np.interp` rejects an empty source grid (and rate 0 divides by zero). -/
theorem resample_empty_behavior :
    resample ([] : List ℚ) 16000 = Except.ok [] ∧
    ∀ Rs : ℕ, Rs ≠ 16000 → ∃ e, resample ([] : List ℚ) Rs = Except.error e := by
  refine ⟨rfl, fun Rs h16 => ?_⟩
  unfold resample
  rw [if_neg h16]
  by_cases h0 : Rs = 0
  · exact ⟨ResampleError.zeroDivision, by rw [if_pos h0]⟩
  · refine ⟨ResampleError.emptySamplePoints, ?_⟩
    rw [if_neg h0]
    rfl

/-- C2 witness: instantiating the amended statement at rate 8000. -/
theorem resample_empty_behavior_witness :
    (8000 ≠ 16000) ∧ ∃ e, resample ([] : List ℚ) 8000 = Except.error e :=
  ⟨by decide, resample_empty_behavior.2 8000 (by decide)⟩

/-- C3 counterexample: an input of fewer than one sample does not always
fail: at source rate 16000 the empty input is returned unchanged with no
error, contradicting the claimed failure condition. -/
theorem resample_empty_at_target_ok_cex :
    resample ([] : List ℚ) 16000 = Except.ok [] ∧ ([] : List ℚ).length < 1 :=
  ⟨rfl, by decide⟩

/-- C3 (amended): the resampling block fails exactly when the source rate is
zero or the input is empty while the source rate differs from the 16000
target; every other input succeeds. The failures are the generic
`ZeroDivisionError`/`ValueError` caught at the request boundary (the code has
no `InvalidAudioInput` error type). -/
theorem resample_error_iff (d : List ℚ) (Rs : ℕ) :
    (∃ e, resample d Rs = Except.error e) ↔ (Rs = 0 ∨ (d = [] ∧ Rs ≠ 16000)) := by
  unfold resample
  by_cases h16 : Rs = 16000
  · subst h16
    simp
  · rw [if_neg h16]
    by_cases h0 : Rs = 0
    · subst h0
      simp
    · rw [if_neg h0]
      by_cases hd : d.length = 0
      · rw [if_pos hd]
        simp [h0, h16, List.length_eq_zero.mp hd]
      · rw [if_neg hd]
        simp only [List.length_eq_zero] at hd
        simp [h0, h16, hd]

/-- C4 counterexample: for a zero-length input at a source rate of 24000 the
resampler produces no output at all (it signals an error), so the output
sample count does not equal round(0 · 16000/24000) = 0. -/
theorem resample_length_empty_cex :
    resample ([] : List ℚ) 24000 = Except.error ResampleError.emptySamplePoints ∧
    ∀ out : List ℚ, resample ([] : List ℚ) 24000 ≠ Except.ok out :=
  ⟨rfl, fun _ h => Except.noConfusion h⟩

/-- C4 (amended): for every nonempty input at a nonzero source rate different
from the 16000 target, resampling succeeds and the output sample count is
exactly `round(L * 16000 / Rs)` with the Python half-to-even rounding (hence
within the claimed ±1 of it). -/
theorem resample_length_eq_round (d : List ℚ) (Rs : ℕ)
    (h16 : Rs ≠ 16000) (h0 : Rs ≠ 0) (hd : d ≠ []) :
    ∃ out, resample d Rs = Except.ok out ∧
      out.length = (pyRound ((d.length : ℚ) * 16000 / (Rs : ℚ))).toNat ∧
      (out.length : ℤ) = pyRound ((d.length : ℚ) * 16000 / (Rs : ℚ)) := by
  have hlen : d.length ≠ 0 := by
    simpa [List.length_eq_zero] using hd
  simp only [resample, if_neg h16, if_neg h0, if_neg hlen]
  refine ⟨_, rfl, ?_, ?_⟩
  · rw [List.length_map, length_linspace01]
  · rw [List.length_map, length_linspace01]
    exact Int.toNat_of_nonneg (pyRound_nonneg _ (by positivity))

/-- C4 witness: a one-sample input at rate 8000 resamples successfully with
output length round(1 · 16000/8000). -/
theorem resample_length_eq_round_witness :
    ∃ out, resample [(1 : ℚ)] 8000 = Except.ok out ∧
      out.length = (pyRound (([(1 : ℚ)].length : ℚ) * 16000 / (8000 : ℚ))).toNat ∧
      (out.length : ℤ) = pyRound (([(1 : ℚ)].length : ℚ) * 16000 / (8000 : ℚ)) :=
  resample_length_eq_round [(1 : ℚ)] 8000 (by decide) (by decide) (by decide)

/-- C5: when the source rate equals the 16000 target the resampler skips
interpolation, returning the input unchanged, and the 16-bit output has
exactly as many samples as the input. -/
theorem resample_identity_at_target (data : List ℚ) :
    resample data 16000 = Except.ok data ∧ (pcm16 data).length = data.length :=
  ⟨rfl, List.length_map data astypeInt16⟩

/-- C10: the float-to-int16 conversion wraps instead of clamping: for every
interpolated sample whose scaled value `x * 32767` lies outside the 16-bit
signed range, the emitted value is congruent mod 2^16 to the truncation of
`x * 32767` toward zero, while lying in [-32768, 32768). -/
theorem astypeInt16_wraps (q : ℚ)
    (h : q * 32767 < -32768 ∨ 32767 < q * 32767) :
    astypeInt16 q % 65536 = ratTrunc (q * 32767) % 65536 ∧
    -32768 ≤ astypeInt16 q ∧ astypeInt16 q < 32768 := by
  unfold astypeInt16
  split_ifs with hlt <;> omega

/-- C10 witness: the sample 2.0 scales to 65534, outside the 16-bit range;
the emitted value is -2 (= 65534 mod 2^16 as twos complement), not the
clamped endpoint 32767. -/
theorem astypeInt16_wraps_witness :
    (32767 < (2 : ℚ) * 32767) ∧
    (astypeInt16 2 % 65536 = ratTrunc ((2 : ℚ) * 32767) % 65536 ∧
      -32768 ≤ astypeInt16 2 ∧ astypeInt16 2 < 32768) ∧
    astypeInt16 2 = -2 ∧ astypeInt16 2 ≠ 32767 :=
  ⟨by norm_num, astypeInt16_wraps 2 (Or.inr (by norm_num)),
   by norm_num [astypeInt16, ratTrunc], by norm_num [astypeInt16, ratTrunc]⟩

/-- C6: for every constant input signal with value c in [-1, 1] whose
resampling succeeds, every emitted 16-bit sample equals the truncation of
c · 32767 and is within 1 of round(c · 32767), independent of the source
rate (the right-hand sides do not mention the rate). -/
theorem resample_const_output (c : ℚ) (L Rs : ℕ) (out : List ℚ)
    (hc1 : -1 ≤ c) (hc2 : c ≤ 1)
    (hout : resample (List.replicate L c) Rs = Except.ok out) :
    ∀ v ∈ pcm16 out, v = ratTrunc (c * 32767) ∧ |v - pyRound (c * 32767)| ≤ 1 := by
  have hmem : ∀ y ∈ out, y = c := by
    intro y hy
    unfold resample at hout
    by_cases h16 : Rs = 16000
    · rw [if_pos h16] at hout
      cases hout
      exact List.eq_of_mem_replicate hy
    · rw [if_neg h16] at hout
      by_cases h0 : Rs = 0
      · rw [if_pos h0] at hout
        cases hout
      · rw [if_neg h0] at hout
        by_cases hL : (List.replicate L c).length = 0
        · rw [if_pos hL] at hout
          cases hout
        · rw [if_neg hL] at hout
          cases hout
          obtain ⟨x, _, hx⟩ := List.mem_map.mp hy
          rw [← hx, List.length_replicate]
          have hL0 : L ≠ 0 := by simpa using hL
          exact npInterp_const L hL0 c x
  intro v hv
  obtain ⟨y, hy, hval⟩ := List.mem_map.mp hv
  have hyc : y = c := hmem y hy
  subst hyc
  rw [← hval]
  have hb := ratTrunc_bounds y hc1 hc2
  have heq : astypeInt16 y = ratTrunc (y * 32767) :=
    astypeInt16_eq_trunc y (by omega) (by omega)
  exact ⟨heq, heq ▸ trunc_vs_pyRound (y * 32767)⟩

/-- C6 witness: the constant signal [1.0] at source rate 16000. -/
theorem resample_const_output_witness :
    resample (List.replicate 1 (1 : ℚ)) 16000 = Except.ok [(1 : ℚ)] ∧
    ∀ v ∈ pcm16 [(1 : ℚ)],
      v = ratTrunc ((1 : ℚ) * 32767) ∧ |v - pyRound ((1 : ℚ) * 32767)| ≤ 1 :=
  ⟨rfl, resample_const_output 1 1 16000 [(1 : ℚ)] (by norm_num) le_rfl rfl⟩

/-- C7: the reset operation is idempotent: clearing twice equals clearing
once, and one clear already yields the fully cleared ready state (which is
exactly the initial session state). -/
theorem clear_audio_idempotent (s : Esp32Data) :
    clear_audio (clear_audio s) = clear_audio s ∧ clear_audio s = initData :=
  ⟨rfl, rfl⟩

/-- C8 counterexample: the parameter value "STRONG" is not one of the literal
strings strong/gpt/gpt-oss, yet model selection returns the strong model id,
because the code lowercases and strips the parameter first. -/
theorem choose_model_case_cex :
    choose_model (some "STRONG") = "openai/gpt-oss-120b" ∧
    "STRONG" ≠ "strong" ∧ "STRONG" ≠ "gpt" ∧ "STRONG" ≠ "gpt-oss" := by
  refine ⟨by decide, by decide, by decide, by decide⟩

/-- C8 (amended): model selection returns the strong model id exactly when
the lowercased, whitespace-stripped parameter is one of strong/gpt/gpt-oss,
and the fast default id in every other case, including an absent parameter;
it never returns anything else, and the two ids are distinct. -/
theorem choose_model_characterization (p : Option String) :
    (choose_model p = "openai/gpt-oss-120b" ↔
      (pyStrip (pyLower (p.getD "")) = "strong" ∨
       pyStrip (pyLower (p.getD "")) = "gpt" ∨
       pyStrip (pyLower (p.getD "")) = "gpt-oss")) ∧
    (choose_model p = "openai/gpt-oss-120b" ∨
     choose_model p = "llama-3.1-8b-instant") ∧
    choose_model none = "llama-3.1-8b-instant" ∧
    ("openai/gpt-oss-120b" : String) ≠ "llama-3.1-8b-instant" := by
  refine ⟨?_, ?_, by decide, by decide⟩
  · unfold choose_model
    split_ifs with hcond
    · exact iff_of_true rfl hcond
    · exact iff_of_false (by decide) hcond
  · unfold choose_model
    split_ifs with hcond
    · exact Or.inl rfl
    · exact Or.inr rfl

/-- C1 counterexample: a run in which transcription succeeds and the chat
step fails leaves the transcript changed to the newly recognized text, so not
every session field other than phase is unchanged after a failed run. -/
theorem upload_failure_changes_transcript_cex :
    (upload_audio initData
      { clientConfigured := true, hasAudioField := true, filenameEmpty := false,
        modelParam := none, transcription := some "hello", chat := none,
        ttsDecode := none }).2 = UploadResponse.error 500 ∧
    (upload_audio initData
      { clientConfigured := true, hasAudioField := true, filenameEmpty := false,
        modelParam := none, transcription := some "hello", chat := none,
        ttsDecode := none }).1.status = "ready" ∧
    (upload_audio initData
      { clientConfigured := true, hasAudioField := true, filenameEmpty := false,
        modelParam := none, transcription := some "hello", chat := none,
        ttsDecode := none }).1.text ≠ initData.text := by
  refine ⟨by decide, by decide, by decide⟩

/-- C1 (amended): whenever the pipeline itself fails (the request passed the
guard checks and the handler answered HTTP 500), the phase is back at ready
and `audio_buffer` and `has_audio` are unchanged from before the run;
`transcript` and `reply_text`, however, retain whatever the stages that
succeeded before the failure wrote. -/
theorem upload_failure_resets_phase_and_audio (s : Esp32Data) (env : UploadEnv)
    (hc : env.clientConfigured = true) (hf : env.hasAudioField = true)
    (hn : env.filenameEmpty = false)
    (herr : (upload_audio s env).2 = UploadResponse.error 500) :
    (upload_audio s env).1.status = "ready" ∧
    (upload_audio s env).1.audio_data = s.audio_data ∧
    (upload_audio s env).1.has_audio = s.has_audio := by
  obtain ⟨cc, ha, fe, mp, tr, ch, td⟩ := env
  dsimp only at hc hf hn
  subst hc; subst hf; subst hn
  cases tr with
  | none => exact ⟨rfl, rfl, rfl⟩
  | some t =>
    cases ch with
    | none => exact ⟨rfl, rfl, rfl⟩
    | some r =>
      cases td with
      | none => exact ⟨rfl, rfl, rfl⟩
      | some pr =>
        obtain ⟨d, rate⟩ := pr
        cases hres : resample d rate with
        | error e =>
          simp [upload_audio, hres]
        | ok outv =>
          simp [upload_audio, hres] at herr

/-- C1 witness: a failing run (transcription raises) from the initial state. -/
theorem upload_failure_resets_phase_and_audio_witness :
    (upload_audio initData
      { clientConfigured := true, hasAudioField := true, filenameEmpty := false,
        modelParam := none, transcription := none, chat := none,
        ttsDecode := none }).1.status = "ready" ∧
    (upload_audio initData
      { clientConfigured := true, hasAudioField := true, filenameEmpty := false,
        modelParam := none, transcription := none, chat := none,
        ttsDecode := none }).1.audio_data = initData.audio_data ∧
    (upload_audio initData
      { clientConfigured := true, hasAudioField := true, filenameEmpty := false,
        modelParam := none, transcription := none, chat := none,
        ttsDecode := none }).1.has_audio = initData.has_audio :=
  upload_failure_resets_phase_and_audio initData
    { clientConfigured := true, hasAudioField := true, filenameEmpty := false,
      modelParam := none, transcription := none, chat := none, ttsDecode := none }
    rfl rfl rfl (by decide)

/-- C9 counterexample: from the initial state (which satisfies the
invariant), a fully successful upload whose decoded audio is empty at the
16000 Hz rate sets `has_audio` to true with an empty `audio_buffer`,
violating the invariant. -/
theorem upload_empty_audio_inv_cex :
    audioInv initData ∧
    (upload_audio initData
      { clientConfigured := true, hasAudioField := true, filenameEmpty := false,
        modelParam := none, transcription := some "hi", chat := some "ok",
        ttsDecode := some ([], 16000) }).1.has_audio = true ∧
    (upload_audio initData
      { clientConfigured := true, hasAudioField := true, filenameEmpty := false,
        modelParam := none, transcription := some "hi", chat := some "ok",
        ttsDecode := some ([], 16000) }).1.audio_data = some [] ∧
    ¬ audioInv (upload_audio initData
      { clientConfigured := true, hasAudioField := true, filenameEmpty := false,
        modelParam := none, transcription := some "hi", chat := some "ok",
        ttsDecode := some ([], 16000) }).1 := by
  refine ⟨by decide, by decide, by decide, by decide⟩

/-- C9 (amended): every operation preserves the weaker invariant that
`has_audio` implies the buffer is present; reset and retrieval preserve the
full invariant (buffer present and non-empty) unconditionally, and upload
preserves the full invariant whenever the resampled output of its decoded
audio is nonempty (the violation requires a zero-sample resample result). -/
theorem session_ops_audio_inv (s : Esp32Data) (env : UploadEnv) :
    (audioInvPresent s → audioInvPresent (upload_audio s env).1) ∧
    audioInv (clear_audio s) ∧
    (audioInv s → audioInv (get_audio_stream s).1) ∧
    ((∀ d rate, env.ttsDecode = some (d, rate) →
        ∀ out, resample d rate = Except.ok out → out ≠ []) →
      audioInv s → audioInv (upload_audio s env).1) := by
  obtain ⟨cc, ha, fe, mp, tr, ch, td⟩ := env
  refine ⟨?_, Or.inl rfl, ?_, ?_⟩
  · intro hinv
    cases cc with
    | false => exact hinv
    | true =>
      cases ha with
      | false => exact hinv
      | true =>
        cases fe with
        | true => exact hinv
        | false =>
          cases tr with
          | none => exact hinv
          | some t =>
            cases ch with
            | none => exact hinv
            | some r =>
              cases td with
              | none => exact hinv
              | some pr =>
                obtain ⟨d, rate⟩ := pr
                cases hres : resample d rate with
                | error e =>
                  simpa [upload_audio, hres, audioInvPresent] using hinv
                | ok outv =>
                  simp [upload_audio, hres, audioInvPresent]
  · intro hinv
    have hfix : (get_audio_stream s).1 = s := by
      unfold get_audio_stream
      split_ifs <;> rfl
    rwa [hfix]
  · intro hne hinv
    cases cc with
    | false => exact hinv
    | true =>
      cases ha with
      | false => exact hinv
      | true =>
        cases fe with
        | true => exact hinv
        | false =>
          cases tr with
          | none => exact hinv
          | some t =>
            cases ch with
            | none => exact hinv
            | some r =>
              cases td with
              | none => exact hinv
              | some pr =>
                obtain ⟨d, rate⟩ := pr
                cases hres : resample d rate with
                | error e =>
                  simpa [upload_audio, hres, audioInv] using hinv
                | ok outv =>
                  have houtne : outv ≠ [] := hne d rate rfl outv hres
                  have hbne : pcmBytes outv ≠ [] := by
                    intro hC
                    have h0 : (pcmBytes outv).length = 0 := by rw [hC]; rfl
                    rw [pcmBytes_length] at h0
                    have hl0 : outv.length = 0 := by omega
                    exact houtne (List.length_eq_zero.mp hl0)
                  simp [upload_audio, hres, audioInv, hbne]

/-- C9 witness: a successful upload whose decoded audio is the one-sample
signal [0.0] at 16000 Hz preserves the invariant from the initial state. -/
theorem session_ops_audio_inv_witness :
    audioInv (upload_audio initData
      { clientConfigured := true, hasAudioField := true, filenameEmpty := false,
        modelParam := none, transcription := some "hi", chat := some "ok",
        ttsDecode := some ([(0 : ℚ)], 16000) }).1 :=
  (session_ops_audio_inv initData
    { clientConfigured := true, hasAudioField := true, filenameEmpty := false,
      modelParam := none, transcription := some "hi", chat := some "ok",
      ttsDecode := some ([(0 : ℚ)], 16000) }).2.2.2
    (by
      intro d rate hd out hr
      injection hd with hp
      injection hp with h1 h2
      subst h1
      subst h2
      have hok : Except.ok [(0 : ℚ)] = Except.ok out := hr
      injection hok with he
      rw [← he]
      decide)
    (by decide)
